import Mathlib

/-!
Shallow embedding of the `cal_cad` hybrid STEP-volume utilities.

The repository drives an external B-rep geometry kernel and a mesh
voxelizer.  Those collaborators are modelled as abstract functions
(fields of `Env`); every algorithmic decision of the repository itself
(sewing-based reconstruction, fallback policy, volume arithmetic, unit
conversion, exit codes) is translated directly from the Python sources:
`src/cal_fine.py`, `src/voxel1.py`, `src/voxel2.py`, `src/cal_box.py`.
Scalars are modelled as rationals.
-/

/-- Result of the kernel's `GProp_GProps` volume-properties query on one
solid: `Mass()` (the boundary-integral volume, sign included) and
`CentreOfMass()`. -/
structure GProps where
  mass : ℚ
  com : ℚ × ℚ × ℚ
deriving DecidableEq, Repr

/-- Result of `mesh.voxelize(density=pitch)`: a grid exposing its
occupied-cell count `n_cells`. -/
structure PVGrid where
  n_cells : ℕ
deriving DecidableEq, Repr

/-- The six scalars of `Bnd_Box.Get()`. -/
structure BndBox where
  xmin : ℚ
  ymin : ℚ
  zmin : ℚ
  xmax : ℚ
  ymax : ℚ
  zmax : ℚ
deriving DecidableEq, Repr

/-- Result of `BRepBuilderAPI_Sewing(tol).SewedShape()` as the two
traversals of `sewing_to_solids` see it: the list of `TopAbs_SOLID`
members and the list of `TopAbs_SHELL` members, each in `TopExp_Explorer`
discovery order.  `τ` is the kernel's solid type, `β` its shell type. -/
structure SewedShape (τ β : Type) where
  solids : List τ
  shells : List β

/-- The `--unit` choice shared by every tool: `mm3`, `cm3` or `m3`. -/
inductive VUnit where
  | mm3
  | cm3
  | m3
deriving DecidableEq, Repr

/-- Embeds `UNIT = {"mm3":1.0, "cm3":1/1_000, "m3":1/1_000_000_000}`
from src/cal_fine.py. -/
def UNIT : VUnit → ℚ
  | .mm3 => 1
  | .cm3 => 1 / 1000
  | .m3 => 1 / 1000000000

/-- Embeds `UNIT_SCALE` from src/voxel1.py. -/
def UNIT_SCALE : VUnit → ℚ
  | .mm3 => 1
  | .cm3 => 1 / 1000
  | .m3 => 1 / 1000000000

/-- Embeds `convert_volume(vol_mm3, unit) = vol_mm3 * UNIT_SCALE[unit]`
from src/voxel1.py. -/
def convert_volume (vol_mm3 : ℚ) (unit : VUnit) : ℚ :=
  vol_mm3 * UNIT_SCALE unit

/-- Embeds the inline dict `{"mm3": 1.0, "cm3": 1/1000, "m3": 1/1_000_000_000}`
in src/voxel2.py `main`. -/
def voxel2_unit_scale : VUnit → ℚ
  | .mm3 => 1
  | .cm3 => 1 / 1000
  | .m3 => 1 / 1000000000

/-- Embeds the inline dict `{"mm3": 1.0, "cm3": 1.0 / 1_000, "m3": 1.0 / 1_000_000_000}`
in src/cal_box.py `main`. -/
def cal_box_scale : VUnit → ℚ
  | .mm3 => 1
  | .cm3 => 1 / 1000
  | .m3 => 1 / 1000000000

/-- Embeds `read_step_shape` from src/cal_fine.py (identical in
src/voxel1.py): the kernel either reports `IFSelect_RetDone` and yields
the transferred shape, or the function raises
`RuntimeError(f"STEP read failed: {path}")`.  `readOk` is the kernel's
read status, `shape` the shape it would return. -/
def read_step_shape {σ : Type} (readOk : Bool) (shape : σ) (path : String) :
    Except String σ :=
  if readOk then .ok shape else .error ("STEP read failed: " ++ path)

/-- Embeds `sewing_to_solids(shape, tol)` from src/cal_fine.py.
`sew tol` is the kernel's `SewedShape()` for the run's shape at sewing
tolerance `tol`; `isDone sh` is `BRepBuilderAPI_MakeSolid(sh).IsDone()`
and `mkSolid sh` the corresponding `.Solid()`.  Step ①: collect the
solids already present; if any, return them.  Step ②: otherwise convert
each shell whose `MakeSolid` succeeds, in traversal order. -/
def sewing_to_solids {τ β : Type} (sew : ℚ → SewedShape τ β)
    (isDone : β → Bool) (mkSolid : β → τ) (tol : ℚ) : List τ :=
  let sewed := sew tol
  let solids := sewed.solids
  if solids.isEmpty then (sewed.shells.filter isDone).map mkSolid
  else solids

/-- Embeds `solids_volume(solids, unit_scale)` from src/cal_fine.py.
Each solid is represented by its kernel `GProps`; the loop appends
`(idx, Mass() * unit_scale, CentreOfMass())` and accumulates the total. -/
def solids_volume (solids : List GProps) (unit_scale : ℚ) :
    List (ℕ × ℚ × (ℚ × ℚ × ℚ)) × ℚ :=
  solids.enum.foldl
    (fun acc p =>
      (acc.1 ++ [(p.1, p.2.mass * unit_scale, p.2.com)],
       acc.2 + p.2.mass * unit_scale))
    ([], 0)

/-- Embeds `bbox_volume_mm3(shape)` from src/cal_fine.py: query the
kernel's bounding box and return its corners with
`(xmax-xmin)*(ymax-ymin)*(zmax-zmin)`. -/
def bbox_volume_mm3 {σ : Type} (getBox : σ → BndBox) (shape : σ) :
    BndBox × ℚ :=
  let b := getBox shape
  (b, (b.xmax - b.xmin) * (b.ymax - b.ymin) * (b.zmax - b.zmin))

/-- Embeds `shape_bbox_mm3(shape)` from src/voxel1.py: same box query,
with the volume computed through the extents `dx, dy, dz`. -/
def shape_bbox_mm3 {σ : Type} (getBox : σ → BndBox) (shape : σ) :
    BndBox × ℚ :=
  let b := getBox shape
  let dx := b.xmax - b.xmin
  let dy := b.ymax - b.ymin
  let dz := b.zmax - b.zmin
  (b, dx * dy * dz)

/-- Embeds `compute_bbox_volume(step_filename)` from src/cal_box.py:
read the STEP file (raising on failure), then return the box corners
and the product of the three extents. -/
def compute_bbox_volume {σ : Type} (readOk : Bool) (getBox : σ → BndBox)
    (shape : σ) (step_filename : String) :
    Except String (BndBox × ℚ) := do
  let s ← read_step_shape readOk shape step_filename
  let b := getBox s
  let dx := b.xmax - b.xmin
  let dy := b.ymax - b.ymin
  let dz := b.zmax - b.zmin
  return (b, dx * dy * dz)

/-- Embeds `voxel_volume(mesh, pitch)` from src/cal_fine.py:
`tri = mesh.triangulate()`, `vox = tri.voxelize(density=pitch)`,
`vol_mm3 = vox.n_cells * pitch**3`, returning `(vox, vol_mm3)`.
`μ` is the mesh type of the external voxelizer. -/
def voxel_volume {μ : Type} (triangulate : μ → μ)
    (voxelize : μ → ℚ → PVGrid) (mesh : μ) (pitch : ℚ) : PVGrid × ℚ :=
  let tri := triangulate mesh
  let vox := voxelize tri pitch
  (vox, (vox.n_cells : ℚ) * pitch ^ 3)

/-- Embeds `voxel_volume_mm3(mesh, pitch)` from src/voxel1.py:
identical pipeline, `vol = (pitch ** 3) * n_cells`. -/
def voxel_volume_mm3 {μ : Type} (triangulate : μ → μ)
    (voxelize : μ → ℚ → PVGrid) (mesh : μ) (pitch : ℚ) : PVGrid × ℚ :=
  let tri := triangulate mesh
  let vox := voxelize tri pitch
  let n_cells := vox.n_cells
  (vox, pitch ^ 3 * (n_cells : ℚ))

namespace Voxel2

/-- Embeds `voxel_volume(step_path, pitch, unit_scale)` from
src/voxel2.py: `loadTri path` models
`pv.wrap(read_step_file(step_path).triangulate())`; then
`vol_mm3 = vox.n_cells * pitch**3` and the function returns
`(vol_mm3 * unit_scale, vox)`. -/
def voxel_volume {μ : Type} (loadTri : String → μ)
    (voxelize : μ → ℚ → PVGrid) (step_path : String) (pitch : ℚ)
    (unit_scale : ℚ) : ℚ × PVGrid :=
  let surface := loadTri step_path
  let vox := voxelize surface pitch
  let vol_mm3 := (vox.n_cells : ℚ) * pitch ^ 3
  (vol_mm3 * unit_scale, vox)

end Voxel2

/-- Discriminated result of one pipeline run: either the exact branch's
per-solid report and total, or the voxel branch's grid and native
volume. -/
inductive VolumeResult where
  | exact (infos : List (ℕ × ℚ × (ℚ × ℚ × ℚ))) (total : ℚ)
  | approximate (vox : PVGrid) (vol_mm3 : ℚ)
deriving DecidableEq, Repr

/-- How a `main` terminates: an explicit `sys.exit(code)`, a normal
return (the process then exits with code 0), or an uncaught exception
(no explicit exit code). -/
inductive Outcome where
  | exited (code : ℕ)
  | finished (result : VolumeResult)
  | raised (msg : String)
deriving DecidableEq, Repr

/-- Process exit code of an outcome: `sys.exit(n)` gives `n`, a normal
return gives 0, an uncaught exception has no modelled code. -/
def Outcome.exitCode : Outcome → Option ℕ
  | .exited n => some n
  | .finished _ => some 0
  | .raised _ => none

/-- Observable output of one tool run: the termination outcome, the
optional bounding-box diagnostic the run prints, and the list of pitches
at which the voxel approximator was invoked (in call order). -/
structure FineOutput where
  outcome : Outcome
  bboxDiag : Option ℚ
  voxelCalls : List ℚ
deriving DecidableEq, Repr

/-- Abstraction of the external collaborators plus the run's input, as
one record: the filesystem (`pathExists`), the STEP reader (`readOk`,
`shape`), the sewing kernel (`sew`, `isDone`, `mkSolid`), the
volume-properties query (`vprops`), the shape→mesh conversion (`meshOf`,
modelling `shape_to_pv_mesh`), the mesh observables (`n_points`), the
voxelizer (`triangulate`, `voxelize`) and the bounding-box query
(`getBox`).  `σ` shapes, `τ` solids, `β` shells, `μ` meshes. -/
structure Env (σ τ β μ : Type) where
  pathExists : Bool
  readOk : Bool
  shape : σ
  sew : σ → ℚ → SewedShape τ β
  isDone : β → Bool
  mkSolid : β → τ
  vprops : τ → GProps
  meshOf : σ → μ
  n_points : μ → ℕ
  triangulate : μ → μ
  voxelize : μ → ℚ → PVGrid
  getBox : σ → BndBox

/-- CLI arguments of src/cal_fine.py `main`. -/
structure Args where
  step : String
  tol : ℚ
  pitch : ℚ
  unit : VUnit
  show_ : Bool
  bbox : Bool

/-- CLI arguments of src/voxel1.py `main`. -/
structure Args1 where
  step : String
  pitch : ℚ
  unit : VUnit
  show_ : Bool
  bbox : Bool

/-- Embeds `main()` of src/cal_fine.py: exit 1 if the path is missing;
read the shape (raising on kernel failure); optionally print the
bounding-box diagnostic; run `sewing_to_solids` at `--tol`; if solids
were found, report their volumes at the chosen unit and return,
otherwise convert the shape to a mesh and run `voxel_volume` at
`--pitch` exactly once. -/
def cal_fine_main {σ τ β μ : Type} (env : Env σ τ β μ) (args : Args) :
    FineOutput :=
  if !env.pathExists then ⟨.exited 1, none, []⟩
  else
    match read_step_shape env.readOk env.shape args.step with
    | .error m => ⟨.raised m, none, []⟩
    | .ok shape =>
      let diag := if args.bbox then
          some ((bbox_volume_mm3 env.getBox shape).2 * UNIT args.unit)
        else none
      let solids := sewing_to_solids (env.sew shape) env.isDone env.mkSolid
        args.tol
      if solids.isEmpty then
        let mesh := env.meshOf shape
        let r := voxel_volume env.triangulate env.voxelize mesh args.pitch
        ⟨.finished (.approximate r.1 r.2), diag, [args.pitch]⟩
      else
        let r := solids_volume (solids.map env.vprops) (UNIT args.unit)
        ⟨.finished (.exact r.1 r.2), diag, []⟩

/-- Embeds `main()` of src/voxel1.py: exit 1 if the path is missing;
read the shape (raising on kernel failure); optionally print the
bounding-box diagnostic; convert the shape to a mesh; exit 2 when the
mesh has zero points; otherwise voxelize at `--pitch`. -/
def voxel1_main {σ τ β μ : Type} (env : Env σ τ β μ) (args : Args1) :
    FineOutput :=
  if !env.pathExists then ⟨.exited 1, none, []⟩
  else
    match read_step_shape env.readOk env.shape args.step with
    | .error m => ⟨.raised m, none, []⟩
    | .ok shape =>
      let diag := if args.bbox then
          some (convert_volume (shape_bbox_mm3 env.getBox shape).2 args.unit)
        else none
      let mesh := env.meshOf shape
      if env.n_points mesh = 0 then ⟨.exited 2, diag, []⟩
      else
        let r := voxel_volume_mm3 env.triangulate env.voxelize mesh args.pitch
        ⟨.finished (.approximate r.1 r.2), diag, [args.pitch]⟩

/-- Mapping a function of the payload over an enumerated list forgets
the indices. -/
theorem enumFrom_map_payload {α γ : Type} (f : α → γ) (l : List α) :
    ∀ n : ℕ, (l.enumFrom n).map (fun p => f p.2) = l.map f := by
  induction l with
  | nil => intro n; rfl
  | cons a t ih => intro n; simp [List.enumFrom, ih]

/-- The indices of an enumerated list are consecutive from the start. -/
theorem enumFrom_map_idx {α : Type} (l : List α) :
    ∀ n : ℕ, (l.enumFrom n).map Prod.fst = List.range' n l.length := by
  induction l with
  | nil => intro n; rfl
  | cons a t ih => intro n; simp [List.enumFrom, List.range', ih]

/-- Closed form of the `solids_volume` accumulation loop. -/
theorem solids_volume_foldl (u : ℚ) (l : List (ℕ × GProps))
    (acc : List (ℕ × ℚ × (ℚ × ℚ × ℚ)) × ℚ) :
    l.foldl
        (fun acc p =>
          (acc.1 ++ [(p.1, p.2.mass * u, p.2.com)],
           acc.2 + p.2.mass * u)) acc
      = (acc.1 ++ l.map (fun p => (p.1, p.2.mass * u, p.2.com)),
         acc.2 + (l.map (fun p => p.2.mass * u)).sum) := by
  induction l generalizing acc with
  | nil => simp
  | cons a t ih => simp [ih, add_assoc]

/-- Closed form of `solids_volume`: the report enumerates the kernel
results, scaled, in order; the total is the sum of the scaled masses. -/
theorem solids_volume_eq (solids : List GProps) (u : ℚ) :
    solids_volume solids u =
      (solids.enum.map (fun p => (p.1, p.2.mass * u, p.2.com)),
       (solids.map (fun g => g.mass * u)).sum) := by
  unfold solids_volume
  rw [solids_volume_foldl]
  simp [List.enum, enumFrom_map_payload (fun g : GProps => g.mass * u)]

/-- Scaling each mass before summing equals scaling the sum. -/
theorem sum_map_mass_mul (l : List GProps) (s : ℚ) :
    (l.map (fun g => g.mass * s)).sum = s * (l.map (fun g => g.mass)).sum := by
  induction l with
  | nil => simp
  | cons a t ih =>
    simp only [List.map_cons, List.sum_cons, ih]
    ring

/-- C3: the exact reconstructor sews at the given tolerance, returns
the directly enumerated solids when any exist, attempts shell
classification only otherwise (a shell contributing exactly when
`MakeSolid` succeeds, in traversal order), and returns the empty list
as a normal value when neither step yields a solid. -/
theorem c3_sewing_reconstructor {τ β : Type} (sew : ℚ → SewedShape τ β)
    (isDone : β → Bool) (mkSolid : β → τ) (tol : ℚ) :
    ((sew tol).solids ≠ [] →
        sewing_to_solids sew isDone mkSolid tol = (sew tol).solids)
    ∧ ((sew tol).solids = [] →
        sewing_to_solids sew isDone mkSolid tol
          = ((sew tol).shells.filter isDone).map mkSolid)
    ∧ ((sew tol).solids = [] → (sew tol).shells.filter isDone = [] →
        sewing_to_solids sew isDone mkSolid tol = []) := by
  by_cases h : (sew tol).solids = []
  · refine ⟨fun hne => absurd h hne, fun _ => ?_, fun _ hf => ?_⟩
    · simp [sewing_to_solids, h]
    · simp [sewing_to_solids, h, hf]
  · have hne : (sew tol).solids.isEmpty = false := by
      cases hs : (sew tol).solids with
      | nil => exact absurd hs h
      | cons a t => rfl
    refine ⟨fun _ => ?_, fun he => absurd he h, fun he => absurd he h⟩
    simp [sewing_to_solids, hne]

/-- Witness for C3: a sewn result with no solid and two shells, only
the first of which classifies, yields exactly that converted shell. -/
theorem c3_sewing_witness :
    ((fun _ : ℚ => (⟨[], [true, false]⟩ : SewedShape Bool Bool)) 5).solids = []
    ∧ sewing_to_solids (fun _ : ℚ => (⟨[], [true, false]⟩ : SewedShape Bool Bool))
        id id 5 = [true] := by
  refine ⟨rfl, ?_⟩
  have h := (c3_sewing_reconstructor
    (fun _ : ℚ => (⟨[], [true, false]⟩ : SewedShape Bool Bool)) id id 5).2.1 rfl
  rw [h]
  rfl

/-- C4: the reported total is the sum of the reported member volumes,
each member is the kernel's boundary-integral mass (scaled by the
requested unit) and centroid unmodified, and indices run sequentially
from 0 in discovery order. -/
theorem c4_solids_volume_report (solids : List GProps) (u : ℚ) :
    (solids_volume solids u).2
        = ((solids_volume solids u).1.map (fun t => t.2.1)).sum
    ∧ (solids_volume solids u).1
        = solids.enum.map (fun p => (p.1, p.2.mass * u, p.2.com))
    ∧ (solids_volume solids u).1.map Prod.fst = List.range solids.length := by
  rw [solids_volume_eq]
  refine ⟨?_, rfl, ?_⟩
  · rw [List.map_map]
    simp [Function.comp_def, List.enum,
      enumFrom_map_payload (fun g : GProps => g.mass * u)]
  · simp only [List.map_map]
    have h1 : ((fun t : ℕ × ℚ × (ℚ × ℚ × ℚ) => t.1) ∘
        (fun p : ℕ × GProps => (p.1, p.2.mass * u, p.2.com))) = Prod.fst := rfl
    rw [h1, List.enum, enumFrom_map_idx, List.range_eq_range']

/-- C9: per-solid volumes at scale `s` are `s` times the volumes at
scale 1, and the reported total equals `s` times the sum of the raw
kernel masses: scaling before summing equals summing before scaling. -/
theorem c9_unit_scale_homomorphism (solids : List GProps) (s : ℚ) :
    (solids_volume solids s).1
        = (solids_volume solids 1).1.map (fun t => (t.1, s * t.2.1, t.2.2))
    ∧ (solids_volume solids s).2 = s * (solids_volume solids 1).2
    ∧ (solids_volume solids s).2 = s * (solids.map (fun g => g.mass)).sum := by
  rw [solids_volume_eq, solids_volume_eq]
  refine ⟨?_, ?_, ?_⟩
  · simp [List.map_map, Function.comp, mul_comm]
  · simp [sum_map_mass_mul]
  · simp [sum_map_mass_mul]

/-- C6: all four unit tables agree and are exactly
`mm3 = 1, cm3 = 1/1000, m3 = 1/10^9`; the cm3→mm3 factor is the exact
reciprocal of the mm3→cm3 factor, so the mm3→cm3→mm3 round trip is the
identity. -/
theorem c6_unit_factors :
    (∀ u : VUnit, UNIT u = UNIT_SCALE u ∧ UNIT u = voxel2_unit_scale u
        ∧ UNIT u = cal_box_scale u)
    ∧ UNIT .mm3 = 1 ∧ UNIT .cm3 = 1 / 1000 ∧ UNIT .m3 = 1 / 1000000000
    ∧ (UNIT .cm3)⁻¹ = 1000
    ∧ ∀ v : ℚ, convert_volume v .cm3 * (UNIT .cm3)⁻¹ = v := by
  refine ⟨fun u => by cases u <;> exact ⟨rfl, rfl, rfl⟩, rfl, rfl, rfl, ?_, ?_⟩
  · norm_num [UNIT]
  · intro v
    simp only [UNIT, convert_volume, UNIT_SCALE]
    ring

/-- Amended C5: in `cal_fine.voxel_volume` and `voxel1.voxel_volume_mm3`
the returned volume is exactly the occupied-cell count times pitch
cubed; `voxel2.voxel_volume` computes the same native product but
returns it multiplied by its `unit_scale` argument, so its returned
value equals the native product exactly when `unit_scale = 1`. -/
theorem c5_voxel_volume_formula :
    (∀ (μ : Type) (tri : μ → μ) (vox : μ → ℚ → PVGrid) (m : μ) (p : ℚ),
        (voxel_volume tri vox m p).2
          = ((voxel_volume tri vox m p).1.n_cells : ℚ) * p ^ 3)
    ∧ (∀ (μ : Type) (tri : μ → μ) (vox : μ → ℚ → PVGrid) (m : μ) (p : ℚ),
        (voxel_volume_mm3 tri vox m p).2
          = ((voxel_volume_mm3 tri vox m p).1.n_cells : ℚ) * p ^ 3)
    ∧ (∀ (μ : Type) (load : String → μ) (vox : μ → ℚ → PVGrid)
          (path : String) (p u : ℚ),
        (Voxel2.voxel_volume load vox path p u).1
          = ((Voxel2.voxel_volume load vox path p u).2.n_cells : ℚ) * p ^ 3 * u)
    ∧ (∀ (μ : Type) (load : String → μ) (vox : μ → ℚ → PVGrid)
          (path : String) (p : ℚ),
        (Voxel2.voxel_volume load vox path p 1).1
          = ((Voxel2.voxel_volume load vox path p 1).2.n_cells : ℚ) * p ^ 3) := by
  refine ⟨fun μ tri vox m p => rfl, fun μ tri vox m p => mul_comm _ _,
    fun μ load vox path p u => rfl, fun μ load vox path p => mul_one _⟩

/-- Counterexample to C5 as stated: at `unit_scale = 1/1000` (the
default `cm3` choice of voxel2's `main`), voxel2's returned volume is
not the occupied-cell count times pitch cubed. -/
theorem c5_counterexample :
    ¬ ((Voxel2.voxel_volume (fun _ => ()) (fun _ _ => ⟨1⟩) "part.step" 1
          (1 / 1000)).1
        = ((Voxel2.voxel_volume (fun _ => ()) (fun _ _ => ⟨1⟩) "part.step" 1
          (1 / 1000)).2.n_cells : ℚ) * 1 ^ 3) := by
  norm_num [Voxel2.voxel_volume]

/-- C10: the voxel formula performs no `pitch > 0` validation: it is a
total function, and for `pitch ≤ 0` the returned volume is `≤ 0`, being
strictly negative whenever the pitch is negative and the occupied-cell
count is odd (hence nonzero); this holds for both `cal_fine.voxel_volume`
and `voxel1.voxel_volume_mm3`. -/
theorem c10_pitch_not_validated {μ : Type} (tri : μ → μ)
    (vox : μ → ℚ → PVGrid) (m : μ) (p : ℚ) (hp : p ≤ 0) :
    (voxel_volume tri vox m p).2 ≤ 0
    ∧ (voxel_volume_mm3 tri vox m p).2 ≤ 0
    ∧ (p < 0 → Odd (voxel_volume tri vox m p).1.n_cells →
        (voxel_volume tri vox m p).2 < 0)
    ∧ (p < 0 → Odd (voxel_volume_mm3 tri vox m p).1.n_cells →
        (voxel_volume_mm3 tri vox m p).2 < 0) := by
  have hodd3 : Odd 3 := by decide
  have hcube : p ^ 3 ≤ 0 := hodd3.pow_nonpos hp
  have hpos : ∀ n : ℕ, Odd n → (0 : ℚ) < (n : ℚ) := by
    intro n hn
    obtain ⟨k, hk⟩ := hn
    have : 0 < n := by omega
    exact_mod_cast this
  refine ⟨?_, ?_, ?_, ?_⟩
  · exact mul_nonpos_iff.mpr (Or.inl ⟨Nat.cast_nonneg _, hcube⟩)
  · exact mul_nonpos_iff.mpr (Or.inr ⟨hcube, Nat.cast_nonneg _⟩)
  · intro hneg hn
    exact mul_neg_of_pos_of_neg (hpos _ hn) (hodd3.pow_neg hneg)
  · intro hneg hn
    exact mul_neg_of_neg_of_pos (hodd3.pow_neg hneg) (hpos _ hn)

/-- Witness for C10: with three occupied cells and pitch `-2` the
returned volume is nonpositive (indeed `3 * (-2)^3 = -24 < 0`). -/
theorem c10_witness :
    ((-2 : ℚ) ≤ 0)
    ∧ (voxel_volume (id : Unit → Unit) (fun _ _ => ⟨3⟩) () (-2)).2 ≤ 0
    ∧ (voxel_volume (id : Unit → Unit) (fun _ _ => ⟨3⟩) () (-2)).2 < 0 := by
  have h := c10_pitch_not_validated (id : Unit → Unit) (fun _ _ => ⟨3⟩) ()
    (-2) (by norm_num)
  exact ⟨by norm_num, h.1, h.2.2.1 (by norm_num) (by decide)⟩

/-- Unfolding of `cal_fine_main` for a run whose path exists and whose
STEP read succeeds. -/
theorem cal_fine_main_ok {σ τ β μ : Type} (env : Env σ τ β μ) (args : Args)
    (hp : env.pathExists = true) (hr : env.readOk = true) :
    cal_fine_main env args =
      (if (sewing_to_solids (env.sew env.shape) env.isDone env.mkSolid
            args.tol).isEmpty then
        ⟨.finished (.approximate
            (env.voxelize (env.triangulate (env.meshOf env.shape)) args.pitch)
            (((env.voxelize (env.triangulate (env.meshOf env.shape))
                args.pitch).n_cells : ℚ) * args.pitch ^ 3)),
         (if args.bbox then
            some ((bbox_volume_mm3 env.getBox env.shape).2 * UNIT args.unit)
          else none),
         [args.pitch]⟩
      else
        ⟨.finished (.exact
            (solids_volume ((sewing_to_solids (env.sew env.shape) env.isDone
              env.mkSolid args.tol).map env.vprops) (UNIT args.unit)).1
            (solids_volume ((sewing_to_solids (env.sew env.shape) env.isDone
              env.mkSolid args.tol).map env.vprops) (UNIT args.unit)).2),
         (if args.bbox then
            some ((bbox_volume_mm3 env.getBox env.shape).2 * UNIT args.unit)
          else none),
         []⟩) := by
  unfold cal_fine_main
  simp [read_step_shape, hp, hr, voxel_volume]

/-- Unfolding of `voxel1_main` for a run whose path exists and whose
STEP read succeeds. -/
theorem voxel1_main_ok {σ τ β μ : Type} (env : Env σ τ β μ) (args : Args1)
    (hp : env.pathExists = true) (hr : env.readOk = true) :
    voxel1_main env args =
      (if env.n_points (env.meshOf env.shape) = 0 then
        ⟨.exited 2,
         (if args.bbox then
            some (convert_volume (shape_bbox_mm3 env.getBox env.shape).2
              args.unit)
          else none),
         []⟩
      else
        ⟨.finished (.approximate
            (env.voxelize (env.triangulate (env.meshOf env.shape)) args.pitch)
            (args.pitch ^ 3 *
              ((env.voxelize (env.triangulate (env.meshOf env.shape))
                args.pitch).n_cells : ℚ))),
         (if args.bbox then
            some (convert_volume (shape_bbox_mm3 env.getBox env.shape).2
              args.unit)
          else none),
         [args.pitch]⟩) := by
  unfold voxel1_main
  simp [read_step_shape, hp, hr, voxel_volume_mm3]

/-- Demo environment whose sewn shape already contains one solid of
kernel mass 5 and centroid (1, 2, 3). -/
def envSolid : Env Unit Unit Unit Unit :=
  ⟨true, true, (), fun _ _ => ⟨[()], []⟩, fun _ => true, fun _ => (),
   fun _ => ⟨5, (1, 2, 3)⟩, fun _ => (), fun _ => 8, id, fun _ _ => ⟨3⟩,
   fun _ => ⟨0, 0, 0, 1, 2, 3⟩⟩

/-- Demo environment: sewing yields neither solids nor shells and the
extracted mesh has zero points; voxelizing it yields zero cells. -/
def envEmptyMesh : Env Unit Unit Unit Unit :=
  ⟨true, true, (), fun _ _ => ⟨[], []⟩, fun _ => true, fun _ => (),
   fun _ => ⟨5, (1, 2, 3)⟩, fun _ => (), fun _ => 0, id, fun _ _ => ⟨0⟩,
   fun _ => ⟨0, 0, 0, 0, 0, 0⟩⟩

/-- Demo environment whose input path does not exist. -/
def envMissing : Env Unit Unit Unit Unit :=
  ⟨false, true, (), fun _ _ => ⟨[], []⟩, fun _ => true, fun _ => (),
   fun _ => ⟨0, (0, 0, 0)⟩, fun _ => (), fun _ => 0, id, fun _ _ => ⟨0⟩,
   fun _ => ⟨0, 0, 0, 0, 0, 0⟩⟩

/-- Demo CLI arguments for the hybrid tool: unit `mm3`, tolerance 1/20,
pitch 1/2, no flags. -/
def argsDemo : Args := ⟨"part.step", 1 / 20, 1 / 2, .mm3, false, false⟩

/-- Demo CLI arguments for the standalone voxel tool. -/
def args1Demo : Args1 := ⟨"part.step", 1, .mm3, false, false⟩

/-- C1: after reconstruction the hybrid pipeline takes the exact branch
(reporting the solids' volumes) exactly when the SolidSet is non-empty,
and invokes the voxel approximator at the caller-supplied pitch exactly
when it is empty; the voxel fallback is invoked at most once and the
two outcomes are mutually exclusive. -/
theorem c1_hybrid_branching {σ τ β μ : Type} (env : Env σ τ β μ)
    (args : Args) (hp : env.pathExists = true) (hr : env.readOk = true) :
    (sewing_to_solids (env.sew env.shape) env.isDone env.mkSolid args.tol
        ≠ [] →
      cal_fine_main env args =
        ⟨.finished (.exact
            (solids_volume ((sewing_to_solids (env.sew env.shape) env.isDone
              env.mkSolid args.tol).map env.vprops) (UNIT args.unit)).1
            (solids_volume ((sewing_to_solids (env.sew env.shape) env.isDone
              env.mkSolid args.tol).map env.vprops) (UNIT args.unit)).2),
         (if args.bbox then
            some ((bbox_volume_mm3 env.getBox env.shape).2 * UNIT args.unit)
          else none),
         []⟩)
    ∧ (sewing_to_solids (env.sew env.shape) env.isDone env.mkSolid args.tol
        = [] →
      cal_fine_main env args =
        ⟨.finished (.approximate
            (env.voxelize (env.triangulate (env.meshOf env.shape)) args.pitch)
            (((env.voxelize (env.triangulate (env.meshOf env.shape))
                args.pitch).n_cells : ℚ) * args.pitch ^ 3)),
         (if args.bbox then
            some ((bbox_volume_mm3 env.getBox env.shape).2 * UNIT args.unit)
          else none),
         [args.pitch]⟩)
    ∧ (cal_fine_main env args).voxelCalls.length ≤ 1 := by
  rw [cal_fine_main_ok env args hp hr]
  by_cases h : sewing_to_solids (env.sew env.shape) env.isDone env.mkSolid
      args.tol = []
  · refine ⟨fun hne => absurd h hne, fun _ => ?_, ?_⟩ <;> simp [h]
  · have hne : (sewing_to_solids (env.sew env.shape) env.isDone env.mkSolid
        args.tol).isEmpty = false := by
      cases hs : sewing_to_solids (env.sew env.shape) env.isDone env.mkSolid
          args.tol with
      | nil => exact absurd hs h
      | cons a t => rfl
    refine ⟨fun _ => ?_, fun he => absurd he h, ?_⟩ <;> simp [hne]

/-- Witness for C1: in `envSolid` the SolidSet is the non-empty `[()]`
and the pipeline reports the exact branch with total 5 and no voxel
invocation. -/
theorem c1_witness :
    sewing_to_solids (envSolid.sew envSolid.shape) envSolid.isDone
        envSolid.mkSolid argsDemo.tol ≠ []
    ∧ cal_fine_main envSolid argsDemo =
        ⟨.finished (.exact [(0, 5, (1, 2, 3))] 5), none, []⟩ := by
  have hne : sewing_to_solids (envSolid.sew envSolid.shape) envSolid.isDone
      envSolid.mkSolid argsDemo.tol ≠ [] := by decide
  have h := (c1_hybrid_branching envSolid argsDemo rfl rfl).1 hne
  refine ⟨hne, ?_⟩
  rw [h]
  simp [envSolid, argsDemo, sewing_to_solids, solids_volume_eq, UNIT,
    List.enum, List.enumFrom]

/-- Amended C2: only the standalone voxel tool checks for an empty
mesh: when the mesh extracted from the loaded shape has zero points,
`voxel1`'s main exits with code 2 (distinct from the missing-file code 1
and from success 0); the hybrid pipeline's voxel fallback performs no
such check and completes normally (exit code 0), reporting whatever
volume the voxelizer produces. -/
theorem c2_empty_mesh_amended {σ τ β μ : Type} (env : Env σ τ β μ)
    (args : Args) (args1 : Args1)
    (hp : env.pathExists = true) (hr : env.readOk = true)
    (hm : env.n_points (env.meshOf env.shape) = 0) :
    voxel1_main env args1 =
      ⟨.exited 2,
       (if args1.bbox then
          some (convert_volume (shape_bbox_mm3 env.getBox env.shape).2
            args1.unit)
        else none),
       []⟩
    ∧ (voxel1_main env args1).outcome.exitCode = some 2
    ∧ ((2 : ℕ) ≠ 1 ∧ (2 : ℕ) ≠ 0)
    ∧ (sewing_to_solids (env.sew env.shape) env.isDone env.mkSolid args.tol
          = [] →
        (cal_fine_main env args).outcome.exitCode = some 0
        ∧ (cal_fine_main env args).outcome
            = .finished (.approximate
                (env.voxelize (env.triangulate (env.meshOf env.shape))
                  args.pitch)
                (((env.voxelize (env.triangulate (env.meshOf env.shape))
                    args.pitch).n_cells : ℚ) * args.pitch ^ 3))) := by
  rw [voxel1_main_ok env args1 hp hr]
  refine ⟨by simp [hm], by simp [hm, Outcome.exitCode], by decide, ?_⟩
  intro he
  rw [cal_fine_main_ok env args hp hr]
  simp [he, Outcome.exitCode]

/-- Counterexample to C2 as stated: in `envEmptyMesh` the extracted
mesh has zero points, yet the hybrid pipeline's voxel fallback reports
an approximate volume of 0 and the run exits with code 0, not with a
distinct non-zero empty-mesh code. -/
theorem c2_counterexample :
    envEmptyMesh.n_points (envEmptyMesh.meshOf envEmptyMesh.shape) = 0
    ∧ (cal_fine_main envEmptyMesh argsDemo).outcome.exitCode = some 0
    ∧ (cal_fine_main envEmptyMesh argsDemo).outcome
        = .finished (.approximate ⟨0⟩ 0) := by
  have h := cal_fine_main_ok envEmptyMesh argsDemo rfl rfl
  refine ⟨rfl, ?_, ?_⟩ <;> rw [h] <;>
    simp [envEmptyMesh, argsDemo, sewing_to_solids, Outcome.exitCode]

/-- Witness for the amended C2: in `envEmptyMesh` the standalone voxel
tool exits with code 2 and no diagnostic. -/
theorem c2_witness :
    envEmptyMesh.pathExists = true ∧ envEmptyMesh.readOk = true
    ∧ envEmptyMesh.n_points (envEmptyMesh.meshOf envEmptyMesh.shape) = 0
    ∧ voxel1_main envEmptyMesh args1Demo = ⟨.exited 2, none, []⟩ := by
  have h := c2_empty_mesh_amended envEmptyMesh argsDemo args1Demo rfl rfl rfl
  refine ⟨rfl, rfl, rfl, ?_⟩
  rw [h.1]
  simp [args1Demo]

/-- C7: the bounding-box volume is the product of the three extents in
all three embeddings, it is nonnegative under the box invariant, and
the hybrid pipeline's outcome and voxel invocations are independent of
the `--bbox` diagnostic flag. -/
theorem c7_bbox_diagnostic {σ τ β μ : Type} (env : Env σ τ β μ)
    (args : Args) (getBox : σ → BndBox) (shape : σ) (fn : String)
    (hx : (getBox shape).xmin ≤ (getBox shape).xmax)
    (hy : (getBox shape).ymin ≤ (getBox shape).ymax)
    (hz : (getBox shape).zmin ≤ (getBox shape).zmax) :
    (bbox_volume_mm3 getBox shape).2
        = ((getBox shape).xmax - (getBox shape).xmin)
          * ((getBox shape).ymax - (getBox shape).ymin)
          * ((getBox shape).zmax - (getBox shape).zmin)
    ∧ (shape_bbox_mm3 getBox shape).2 = (bbox_volume_mm3 getBox shape).2
    ∧ compute_bbox_volume true getBox shape fn
        = .ok (getBox shape, (bbox_volume_mm3 getBox shape).2)
    ∧ 0 ≤ (bbox_volume_mm3 getBox shape).2
    ∧ (∀ b : Bool,
        (cal_fine_main env { args with bbox := b }).outcome
            = (cal_fine_main env args).outcome
        ∧ (cal_fine_main env { args with bbox := b }).voxelCalls
            = (cal_fine_main env args).voxelCalls) := by
  refine ⟨rfl, rfl, rfl, ?_, ?_⟩
  · exact mul_nonneg (mul_nonneg (sub_nonneg.mpr hx) (sub_nonneg.mpr hy))
      (sub_nonneg.mpr hz)
  · intro b
    unfold cal_fine_main
    cases hpe : env.pathExists with
    | false => simp
    | true =>
      cases hre : env.readOk with
      | false => simp [read_step_shape]
      | true =>
        simp [read_step_shape]
        by_cases hs : (sewing_to_solids (env.sew env.shape) env.isDone
            env.mkSolid args.tol).isEmpty = true <;> simp [hs]

/-- Witness for C7: the demo box (0,0,0)–(1,2,3) satisfies the
invariant and has nonnegative volume 6. -/
theorem c7_witness :
    (envSolid.getBox ()).xmin ≤ (envSolid.getBox ()).xmax
    ∧ (envSolid.getBox ()).ymin ≤ (envSolid.getBox ()).ymax
    ∧ (envSolid.getBox ()).zmin ≤ (envSolid.getBox ()).zmax
    ∧ 0 ≤ (bbox_volume_mm3 envSolid.getBox ()).2
    ∧ (bbox_volume_mm3 envSolid.getBox ()).2 = 6 := by
  have h := c7_bbox_diagnostic envSolid argsDemo envSolid.getBox () "p.step"
    (by norm_num [envSolid]) (by norm_num [envSolid]) (by norm_num [envSolid])
  refine ⟨by norm_num [envSolid], by norm_num [envSolid],
    by norm_num [envSolid], h.2.2.2.1, ?_⟩
  norm_num [bbox_volume_mm3, envSolid]

/-- C8: when the input path does not exist both tools exit with code 1
immediately — no shape is read, no diagnostic is printed and the voxel
approximator is never invoked; runs that complete normally exit with
code 0. -/
theorem c8_exit_codes {σ τ β μ : Type} (env : Env σ τ β μ) (args : Args)
    (args1 : Args1) :
    (env.pathExists = false →
        cal_fine_main env args = ⟨.exited 1, none, []⟩
        ∧ voxel1_main env args1 = ⟨.exited 1, none, []⟩)
    ∧ (env.pathExists = true → env.readOk = true →
        (cal_fine_main env args).outcome.exitCode = some 0)
    ∧ (env.pathExists = true → env.readOk = true →
        env.n_points (env.meshOf env.shape) ≠ 0 →
        (voxel1_main env args1).outcome.exitCode = some 0) := by
  refine ⟨?_, ?_, ?_⟩
  · intro h
    refine ⟨?_, ?_⟩
    · unfold cal_fine_main
      simp [h]
    · unfold voxel1_main
      simp [h]
  · intro hp hr
    rw [cal_fine_main_ok env args hp hr]
    split <;> rfl
  · intro hp hr hm
    rw [voxel1_main_ok env args1 hp hr]
    simp [hm, Outcome.exitCode]

/-- Witness for C8: in `envMissing` both tools exit with code 1 and
produce nothing else. -/
theorem c8_witness :
    envMissing.pathExists = false
    ∧ cal_fine_main envMissing argsDemo = ⟨.exited 1, none, []⟩
    ∧ voxel1_main envMissing args1Demo = ⟨.exited 1, none, []⟩ := by
  have h := (c8_exit_codes envMissing argsDemo args1Demo).1 rfl
  exact ⟨rfl, h.1, h.2⟩
